import Mathlib

set_option maxHeartbeats 1000000

/-!
Shallow embedding of the acquisition pipeline of the taiwan-stock-monitor
repository: the three market-specific downloaders `downloader_jp.py`,
`downloader_us.py` and `downloader_cn.py`.  External effects (network
listing fetches, the yfinance history call, the filesystem) appear as
explicit parameters; everything else is translated line by line from the
Python source.
-/

/-- Outcome of one invocation of the external history-fetch call
(`yf.Ticker(...).history(...)`): a dataframe that is nonempty or empty, or a
raised exception, which may or may not carry the provider's rate-limit text. -/
inductive FetchOutcome where
  | data (nonempty : Bool)
  | exn (rateLimited : Bool)
deriving DecidableEq

/-- A row of a resolved listing dataframe: instrument code, display name and
board tag (the columns produced by `get_tse_list` in `downloader_jp.py`). -/
structure Target where
  code : String
  name : String
  board : String
deriving DecidableEq

/-- A row of the persisted manifest CSV (`jp_manifest.csv`): the listing
columns plus the status column. -/
structure Entry where
  code : String
  name : String
  board : String
  status : String
deriving DecidableEq

/-- Observable filesystem state of a per-target artifact file: whether the
path exists, the date of its mtime, and its byte size. -/
structure FileState where
  pathExists : Bool
  mtimeDate : Int
  size : Nat
deriving DecidableEq

/-- A fetch function that raises an ordinary (non-rate-limited) transient
error on every invocation. -/
def alwaysExn : Nat → FetchOutcome := fun _ => FetchOutcome.exn false

/-- The manifest status domain of `downloader_jp.py`: the only strings any
operation of that file writes into the status column. -/
def status_ok (s : String) : Prop :=
  s ∈ (["pending", "done", "empty", "failed"] : List String)

instance : DecidablePred status_ok := fun s => by
  unfold status_ok
  infer_instance

namespace JP

/-- `downloader_jp.get_tse_list` (lines 42-75) with its external effects as
parameters: `primary` is the parsed, deduplicated TSE listing when parsing
succeeds (`none` models a raised exception), `cacheFile` is the content of
`jp_list_all.csv` when that file exists.  Result: the resolved listing and
what is persisted to `jp_list_all.csv` (`none` when nothing is written).
A listing below the 3800-row threshold is not persisted and is replaced by
the cache file when one exists; on an exception the cache file is returned
when it exists and an empty dataframe otherwise. -/
def get_tse_list (primary : Option (List Target)) (cacheFile : Option (List Target)) :
    List Target × Option (List Target) :=
  match primary with
  | some finalDf =>
      if finalDf.length < 3800 then
        match cacheFile with
        | some c => (c, none)
        | none => (finalDf, none)
      else (finalDf, some finalDf)
  | none =>
      match cacheFile with
      | some c => (c, none)
      | none => ([], none)

/-- The entry inserted for a newly seen target: the listing columns with
status `pending` (`downloader_jp.build_manifest`, lines 86-87). -/
def toPendingEntry (t : Target) : Entry :=
  { code := t.code, name := t.name, board := t.board, status := "pending" }

/-- Merge branch of `downloader_jp.build_manifest` (lines 81-89): to the
existing manifest, append a `pending` entry for each listing row whose code
does not occur among the manifest codes; existing rows are left untouched. -/
def mergeManifest (mf : List Entry) (ts : List Target) : List Entry :=
  mf ++ (ts.filter (fun t => ! mf.any (fun e => e.code == t.code))).map toPendingEntry

/-- First-run branch of `downloader_jp.build_manifest` (lines 91-95): every
listing row becomes an entry; codes with an already-existing `*.T.csv` file in
the data directory are marked `done`, the rest `pending`. -/
def firstRun (ts : List Target) (existingFiles : List String) : List Entry :=
  ts.map (fun t =>
    { code := t.code, name := t.name, board := t.board,
      status := if existingFiles.contains t.code then "done" else "pending" })

/-- `downloader_jp.build_manifest` (lines 77-98).  `prev` is the manifest CSV
content when `jp_manifest.csv` exists, `existingFiles` the set of code stems
of `*.T.csv` files already present in the data directory. -/
def build_manifest (prev : Option (List Entry)) (existingFiles : List String)
    (dfList : List Target) : List Entry :=
  if dfList.isEmpty then []
  else
    match prev with
    | some mf => mergeManifest mf dfList
    | none => firstRun dfList existingFiles

/-- Retry loop of `downloader_jp.download_one` (lines 107-138): `attempt` is
the loop index, `remaining` the attempts left, `calls` counts invocations of
the fetch function.  Nonempty data returns `done`; empty data on the last
attempt returns `empty`; an exception on the last attempt returns `failed`;
otherwise the loop continues after the backoff sleep.  Falling out of the
loop returns `failed` (line 138). -/
def attemptsLoop (fetch : Nat → FetchOutcome) : Nat → Nat → Nat → String × Nat
  | _, 0, calls => ("failed", calls)
  | attempt, r + 1, calls =>
    match fetch attempt with
    | .data true => ("done", calls + 1)
    | .data false =>
        if r = 0 then ("empty", calls + 1)
        else attemptsLoop fetch (attempt + 1) r (calls + 1)
    | .exn _ =>
        if r = 0 then ("failed", calls + 1)
        else attemptsLoop fetch (attempt + 1) r (calls + 1)

/-- `downloader_jp.download_one` (lines 100-138) with `max_retries = 3`;
returns the recorded status and the number of fetch invocations. -/
def download_one (fetch : Nat → FetchOutcome) : String × Nat :=
  attemptsLoop fetch 0 3 0

/-- Selection of the entries dispatched in a run (`downloader_jp.main`,
line 151, `mf[~mf["status"].isin(["done", "empty"])]`): statuses `done` and
`empty` are both excluded. -/
def todo (mf : List Entry) : List Entry :=
  mf.filter (fun e => ! decide (e.status ∈ (["done", "empty"] : List String)))

/-- The status write `mf.at[idx, "status"] = status` (`downloader_jp.main`,
line 162), on the manifest viewed as a positionally indexed list. -/
def setStatus : List Entry → Nat → String → List Entry
  | [], _, _ => []
  | e :: rest, 0, s => { e with status := s } :: rest
  | e :: rest, i + 1, s => e :: setStatus rest i s

/-- Observable file contents while `mf.to_csv(MANIFEST_CSV)` runs
(`downloader_jp.main`, lines 166 and 170, and `build_manifest`, line 97):
pandas opens the destination path itself for a truncating write and appends
rows sequentially, so the prior content and every prefix of the new rows are
observable states; a write-to-temporary-then-rename scheme would instead
expose only the old and the new content. -/
def to_csv (old new : List Entry) : List (List Entry) :=
  old :: (List.range (new.length + 1)).map (fun k => new.take k)

/-- Result-consumption loop of `downloader_jp.main` (lines 159-170): each
completed result is written into the manifest, the ledger is persisted after
every 100th completion, and once more unconditionally in the `finally` block.
Returns the final manifest and the persisted snapshots in order. -/
def runLoop (mf : List Entry) (count : Nat) (persists : List (List Entry)) :
    List (Nat × String) → List Entry × List (List Entry)
  | [] => (mf, persists ++ [mf])
  | (i, s) :: rest =>
      runLoop (setStatus mf i s) (count + 1)
        (if (count + 1) % 100 = 0 then persists ++ [setStatus mf i s] else persists) rest

/-- Catalog guard of `downloader_jp.main` (lines 144-148): an empty resolved
listing ends the run before any manifest work; otherwise `build_manifest`
runs on the listing. -/
def main_manifest_stage (dfList : List Target) (prev : Option (List Entry))
    (existingFiles : List String) : Option (List Entry) :=
  if dfList.isEmpty then none
  else some (build_manifest prev existingFiles dfList)

end JP

namespace US

/-- Artifact freshness test of `downloader_us.download_stock_data`
(line 102): the path exists and its size exceeds 1000 bytes; the mtime date
is not consulted. -/
def artifact_fresh (fs : FileState) : Bool :=
  fs.pathExists && decide (1000 < fs.size)

/-- Retry loop of `downloader_us.download_stock_data` (lines 109-126): two
attempts; nonempty data returns `success`; empty data or a caught exception
(rate-limited or not — the distinction only lengthens the sleep) moves on to
the next attempt; after the loop the function returns `empty` (line 127). -/
def attemptsLoopUS (fetch : Nat → FetchOutcome) : Nat → Nat → Nat → String × Nat
  | _, 0, calls => ("empty", calls)
  | attempt, r + 1, calls =>
    match fetch attempt with
    | .data true => ("success", calls + 1)
    | .data false => attemptsLoopUS fetch (attempt + 1) r (calls + 1)
    | .exn _ => attemptsLoopUS fetch (attempt + 1) r (calls + 1)

/-- `downloader_us.download_stock_data` (lines 93-129): the fresh-artifact
check precedes any fetch; otherwise the two-attempt loop runs.  Returns the
reported status and the number of fetch invocations. -/
def download_stock_data (fs : FileState) (fetch : Nat → FetchOutcome) : String × Nat :=
  if artifact_fresh fs then ("exists", 0) else attemptsLoopUS fetch 0 2 0

/-- Threshold stage of `downloader_us.get_full_stock_list` (lines 78-91): a
fetched list of at least 3000 entries is persisted as today's cache and
returned; otherwise the cache file is returned when present, and the
undersized list itself only when no cache file exists.  Second component:
what is written to the cache file (`none` when nothing is written). -/
def threshold_stage (finalList : List String) (cacheFile : Option (List String)) :
    List String × Option (List String) :=
  if 3000 ≤ finalList.length then (finalList, some finalList)
  else
    match cacheFile with
    | some c => (c, none)
    | none => (finalList, none)

end US

namespace CN

/-- Artifact freshness test of `downloader_cn.download_one` (lines 77-79):
the path exists, its mtime date equals today, and its size exceeds
1000 bytes. -/
def artifact_fresh (fs : FileState) (today : Int) : Bool :=
  fs.pathExists && (fs.mtimeDate == today) && decide (1000 < fs.size)

/-- `downloader_cn.download_one` (lines 64-96): a fresh artifact skips the
fetch entirely; otherwise a single fetch attempt runs: nonempty data means
`success`, empty data means `empty`, and any raised exception is caught by
the enclosing `except` and classified `error`.  Returns the status and the
number of fetch invocations. -/
def download_one (fs : FileState) (today : Int) (fetch : FetchOutcome) : String × Nat :=
  if artifact_fresh fs today then ("exists", 0)
  else
    match fetch with
    | .data true => ("success", 1)
    | .data false => ("empty", 1)
    | .exn _ => ("error", 1)

/-- Fallback chain of `downloader_cn.get_cn_list` (lines 54-62): when the
primary path fails, the secondary listing source is consulted, and when that
also raises, a hardcoded two-entry list is returned. -/
def fallback (secondary : Option (List String)) : List String :=
  match secondary with
  | some r => r
  | none => ["600519&貴州茅台", "000001&平安銀行"]

/-- `downloader_cn.get_cn_list` (lines 24-62): today's cache is returned when
present; otherwise the primary source's result is accepted only above the
1000-entry threshold; an undersized result or a raised exception
(`primary = none`) runs the fallback chain.  The function has no failure
outcome. -/
def get_cn_list (todayCache : Option (List String)) (primary : Option (List String))
    (secondary : Option (List String)) : List String :=
  match todayCache with
  | some c => c
  | none =>
    match primary with
    | some res => if 1000 < res.length then res else fallback secondary
    | none => fallback secondary

end CN

lemma attemptsLoop_mem (fetch : Nat → FetchOutcome) :
    ∀ r a c, (JP.attemptsLoop fetch a r c).1 = "done" ∨
      (JP.attemptsLoop fetch a r c).1 = "empty" ∨
      (JP.attemptsLoop fetch a r c).1 = "failed" := by
  intro r
  induction r with
  | zero => intro a c; simp [JP.attemptsLoop]
  | succ n ih =>
      intro a c
      cases h : fetch a with
      | data ne =>
          cases ne
          · rw [JP.attemptsLoop, h]
            by_cases h0 : n = 0
            · simp [h0]
            · simpa [h0] using ih (a + 1) (c + 1)
          · rw [JP.attemptsLoop, h]
            simp
      | exn rl =>
          rw [JP.attemptsLoop, h]
          by_cases h0 : n = 0
          · simp [h0]
          · simpa [h0] using ih (a + 1) (c + 1)

lemma attemptsLoopUS_mem (fetch : Nat → FetchOutcome) :
    ∀ r a c, (US.attemptsLoopUS fetch a r c).1 = "success" ∨
      (US.attemptsLoopUS fetch a r c).1 = "empty" := by
  intro r
  induction r with
  | zero => intro a c; simp [US.attemptsLoopUS]
  | succ n ih =>
      intro a c
      cases h : fetch a with
      | data ne =>
          cases ne
          · rw [US.attemptsLoopUS, h]
            exact ih (a + 1) (c + 1)
          · rw [US.attemptsLoopUS, h]
            simp
      | exn rl =>
          rw [US.attemptsLoopUS, h]
          exact ih (a + 1) (c + 1)

lemma build_manifest_none (ex : List String) (ts : List Target) :
    JP.build_manifest none ex ts = JP.firstRun ts ex := by
  cases ts <;> simp [JP.build_manifest, JP.firstRun]

lemma to_csv_getLast (old new : List Entry) :
    (JP.to_csv old new).getLast? = some new := by
  unfold JP.to_csv
  rw [List.range_succ, List.map_append]
  simp only [List.map_cons, List.map_nil, List.take_length, ← List.cons_append,
    List.getLast?_concat]

lemma runLoop_last (results : List (Nat × String)) :
    ∀ mf count persists,
      (JP.runLoop mf count persists results).2.getLast? =
        some (JP.runLoop mf count persists results).1 := by
  induction results with
  | nil => intro mf count persists; simp [JP.runLoop]
  | cons hd tl ih =>
      intro mf count persists
      cases hd with
      | mk i s =>
          rw [JP.runLoop]
          exact ih _ _ _

/-- C1: merging a catalog snapshot into a manifest appends a `pending` entry
for each target whose code is not already present, leaves every existing row
unchanged as a prefix, and merging the same snapshot a second time is the
identity — in particular neither the entry count nor any status changes. -/
theorem C1_merge_pending_idempotent (mf : List Entry) (ts : List Target) :
    (∃ rest, JP.mergeManifest mf ts = mf ++ rest) ∧
    (∀ t ∈ ts, (∀ e ∈ mf, e.code ≠ t.code) →
      JP.toPendingEntry t ∈ JP.mergeManifest mf ts) ∧
    JP.mergeManifest (JP.mergeManifest mf ts) ts = JP.mergeManifest mf ts := by
  refine ⟨⟨_, rfl⟩, ?_, ?_⟩
  · intro t ht hnew
    have hmf : mf.any (fun e => e.code == t.code) = false := by
      rw [List.any_eq_false]
      intro e he
      simp only [beq_iff_eq]
      exact hnew e he
    unfold JP.mergeManifest
    refine List.mem_append_right _ ?_
    refine List.mem_map.mpr ⟨t, ?_, rfl⟩
    exact List.mem_filter.mpr ⟨ht, by simp [hmf]⟩
  · have key : ∀ t ∈ ts,
        (JP.mergeManifest mf ts).any (fun e => e.code == t.code) = true := by
      intro t ht
      rw [JP.mergeManifest, List.any_append]
      by_cases hmf : mf.any (fun e => e.code == t.code) = true
      · simp [hmf]
      · have hmf2 : mf.any (fun e => e.code == t.code) = false :=
          Bool.eq_false_iff.mpr hmf
        have hfil : t ∈ ts.filter (fun t2 => ! mf.any (fun e => e.code == t2.code)) :=
          List.mem_filter.mpr ⟨ht, by simp [hmf2]⟩
        have hmem : JP.toPendingEntry t ∈
            (ts.filter (fun t2 => ! mf.any (fun e => e.code == t2.code))).map
              JP.toPendingEntry :=
          List.mem_map_of_mem _ hfil
        have hany : ((ts.filter (fun t2 => ! mf.any (fun e => e.code == t2.code))).map
            JP.toPendingEntry).any (fun e => e.code == t.code) = true :=
          List.any_eq_true.mpr ⟨JP.toPendingEntry t, hmem, by simp [JP.toPendingEntry]⟩
        simp [hmf2, hany]
    have hnil : ts.filter
        (fun t => ! (JP.mergeManifest mf ts).any (fun e => e.code == t.code)) = [] := by
      rw [List.filter_eq_nil_iff]
      intro t ht
      simp [key t ht]
    rw [show JP.mergeManifest (JP.mergeManifest mf ts) ts =
          JP.mergeManifest mf ts ++
            (ts.filter
              (fun t => ! (JP.mergeManifest mf ts).any (fun e => e.code == t.code))).map
              JP.toPendingEntry from rfl,
        hnil]
    simp

/-- C1 witness: concrete instance of the merge theorem — a fresh code becomes
a `pending` entry and a second merge of the same snapshot changes nothing. -/
theorem C1_witness :
    JP.toPendingEntry ⟨"1301", "A", "T"⟩ ∈
        JP.mergeManifest [] [⟨"1301", "A", "T"⟩] ∧
      JP.mergeManifest (JP.mergeManifest [] [⟨"1301", "A", "T"⟩]) [⟨"1301", "A", "T"⟩] =
        JP.mergeManifest [] [⟨"1301", "A", "T"⟩] := by
  have h := C1_merge_pending_idempotent [] [⟨"1301", "A", "T"⟩]
  exact ⟨h.2.1 ⟨"1301", "A", "T"⟩ (by simp) (by simp), h.2.2⟩

/-- C2 counterexample: an entry with status `empty` is not selected for
dispatch by `downloader_jp.main` (line 151), refuting both that the retryable
set contains the `empty` entries and that `done` is the only excluded
status. -/
theorem C2_counterexample :
    JP.todo [⟨"1301", "A", "T", "empty"⟩] = [] ∧ ("empty" : String) ≠ "done" := by
  exact ⟨rfl, by decide⟩

/-- C2 (amended): the set dispatched in a run is exactly the entries whose
status is neither `done` nor `empty`; under the status-domain invariant this
is exactly the entries with status `pending` or `failed` — `empty` is
terminal across runs just like `done`. -/
theorem C2_todo_excludes_done_and_empty (mf : List Entry) (e : Entry) :
    (e ∈ JP.todo mf ↔ e ∈ mf ∧ e.status ≠ "done" ∧ e.status ≠ "empty") ∧
    (status_ok e.status →
      (e ∈ JP.todo mf ↔ e ∈ mf ∧ (e.status = "pending" ∨ e.status = "failed"))) := by
  have h1 : e ∈ JP.todo mf ↔ e ∈ mf ∧ e.status ≠ "done" ∧ e.status ≠ "empty" := by
    simp [JP.todo, List.mem_filter, not_or]
  refine ⟨h1, fun hok => ?_⟩
  rw [h1]
  unfold status_ok at hok
  simp only [List.mem_cons, List.not_mem_nil, or_false] at hok
  rcases hok with h | h | h | h <;> rw [h] <;> simp

/-- C2 witness: a `failed` entry is dispatched, via the amended
characterization applied at a concrete manifest. -/
theorem C2_witness :
    (⟨"1301", "A", "T", "failed"⟩ : Entry) ∈ JP.todo [⟨"1301", "A", "T", "failed"⟩] ↔
      (⟨"1301", "A", "T", "failed"⟩ : Entry) ∈ ([⟨"1301", "A", "T", "failed"⟩] : List Entry) ∧
        (("failed" : String) = "pending" ∨ ("failed" : String) = "failed") :=
  (C2_todo_excludes_done_and_empty [⟨"1301", "A", "T", "failed"⟩]
    ⟨"1301", "A", "T", "failed"⟩).2 (by decide)

/-- C3 counterexample: in the us variant a fetch that raises a transient
error on every invocation exhausts the two attempts and the operation returns
status `empty`, not `failed`. -/
theorem C3_counterexample :
    US.download_stock_data ⟨false, 0, 0⟩ alwaysExn = ("empty", 2) ∧
      ("empty" : String) ≠ "failed" := by
  exact ⟨rfl, by decide⟩

/-- C3 (amended): with a fetch that raises a transient error on every
invocation, the jp variant invokes the fetch exactly `max_retries = 3` times
and records `failed`, while the us variant invokes it exactly its cap of
2 times and then returns `empty` rather than `failed`. -/
theorem C3_retry_exhaustion (fetch : Nat → FetchOutcome)
    (h : ∀ n, fetch n = FetchOutcome.exn false) (fs : FileState)
    (hfs : US.artifact_fresh fs = false) :
    JP.download_one fetch = ("failed", 3) ∧
      US.download_stock_data fs fetch = ("empty", 2) := by
  constructor
  · simp [JP.download_one, JP.attemptsLoop, h]
  · simp [US.download_stock_data, hfs, US.attemptsLoopUS, h]

/-- C3 witness: the retry-exhaustion theorem at the always-raising fetch and
a non-fresh artifact state. -/
theorem C3_witness :
    JP.download_one alwaysExn = ("failed", 3) ∧
      US.download_stock_data ⟨false, 0, 500⟩ alwaysExn = ("empty", 2) :=
  C3_retry_exhaustion alwaysExn (fun _ => rfl) ⟨false, 0, 500⟩ rfl

/-- C4 counterexample: in the us variant an artifact whose mtime date (0)
differs from the current date (1) still counts as fresh and the fetch is
skipped — the freshness check there tests only existence and size, not all
three conditions. -/
theorem C4_counterexample :
    US.artifact_fresh ⟨true, 0, 2000⟩ = true ∧ ((0 : Int) = 1 → False) ∧
      US.download_stock_data ⟨true, 0, 2000⟩ alwaysExn = ("exists", 0) := by
  exact ⟨rfl, by decide, rfl⟩

/-- C4 (amended): the cn variant's freshness check is true exactly when the
artifact exists, its mtime date equals today and its size exceeds 1000 bytes,
and a fresh artifact skips the fetch entirely; the us variant's check tests
only existence and size (no date condition) and likewise skips the fetch when
true. -/
theorem C4_cache_freshness (fs : FileState) (today : Int) (f1 : FetchOutcome)
    (fetch : Nat → FetchOutcome) :
    (CN.artifact_fresh fs today = true ↔
        fs.pathExists = true ∧ fs.mtimeDate = today ∧ 1000 < fs.size) ∧
    (CN.artifact_fresh fs today = true → CN.download_one fs today f1 = ("exists", 0)) ∧
    (US.artifact_fresh fs = true ↔ fs.pathExists = true ∧ 1000 < fs.size) ∧
    (US.artifact_fresh fs = true → US.download_stock_data fs fetch = ("exists", 0)) := by
  refine ⟨?_, ?_, ?_, ?_⟩
  · simp [CN.artifact_fresh, and_assoc]
  · intro h
    simp [CN.download_one, h]
  · simp [US.artifact_fresh]
  · intro h
    simp [US.download_stock_data, h]

/-- C4 witness: the freshness theorem at a concrete same-day, 2000-byte
artifact: both variants skip the fetch. -/
theorem C4_witness :
    CN.download_one ⟨true, 5, 2000⟩ 5 (FetchOutcome.exn false) = ("exists", 0) ∧
      US.download_stock_data ⟨true, 5, 2000⟩ alwaysExn = ("exists", 0) := by
  have h := C4_cache_freshness ⟨true, 5, 2000⟩ 5 (FetchOutcome.exn false) alwaysExn
  exact ⟨h.2.1 rfl, h.2.2.2 rfl⟩

/-- C5: an undersized listing result (below 3000 for us, below 3800 for jp)
is never persisted as today's snapshot, and when a persisted snapshot exists
it is returned instead of the undersized result. -/
theorem C5_undersized_fallback (l : List String) (cache : Option (List String))
    (ts : List Target) (tcache : Option (List Target)) :
    (l.length < 3000 →
      (US.threshold_stage l cache).2 = none ∧
        ∀ c, cache = some c → (US.threshold_stage l cache).1 = c) ∧
    (ts.length < 3800 →
      (JP.get_tse_list (some ts) tcache).2 = none ∧
        ∀ c, tcache = some c → (JP.get_tse_list (some ts) tcache).1 = c) := by
  constructor
  · intro hl
    unfold US.threshold_stage
    rw [if_neg (by omega)]
    cases cache with
    | none => exact ⟨rfl, fun c hc => by cases hc⟩
    | some c0 => exact ⟨rfl, fun c hc => by cases hc; rfl⟩
  · intro hts
    cases tcache with
    | none =>
        refine ⟨?_, fun c hc => by cases hc⟩
        simp [JP.get_tse_list, hts]
    | some c0 =>
        constructor
        · simp [JP.get_tse_list, hts]
        · intro c hc
          cases hc
          simp [JP.get_tse_list, hts]

/-- C5 witness: a 50-entry listing against the thresholds — nothing is
persisted and the existing snapshot is returned for both variants. -/
theorem C5_witness :
    (US.threshold_stage (List.replicate 50 "X&Y") (some ["A&B"])).2 = none ∧
      (US.threshold_stage (List.replicate 50 "X&Y") (some ["A&B"])).1 = ["A&B"] ∧
      (JP.get_tse_list (some (List.replicate 50 ⟨"1301", "A", "T"⟩))
        (some [⟨"9984", "S", "T"⟩])).2 = none ∧
      (JP.get_tse_list (some (List.replicate 50 ⟨"1301", "A", "T"⟩))
        (some [⟨"9984", "S", "T"⟩])).1 = [⟨"9984", "S", "T"⟩] := by
  have h := C5_undersized_fallback (List.replicate 50 "X&Y") (some ["A&B"])
    (List.replicate 50 ⟨"1301", "A", "T"⟩) (some [⟨"9984", "S", "T"⟩])
  have h1 := h.1 (by simp)
  have h2 := h.2 (by simp)
  exact ⟨h1.1, h1.2 _ rfl, h2.1, h2.2 _ rfl⟩

/-- C6 counterexample: with today's cache absent and both listing sources
raising — every source and fallback exhausted — the cn variant does not fail:
it resolves to a hardcoded two-entry list, so the run proceeds instead of
surfacing an unavailability error. -/
theorem C6_counterexample :
    CN.get_cn_list none none none = ["600519&貴州茅台", "000001&平安銀行"] ∧
      (CN.get_cn_list none none none).isEmpty = false := ⟨rfl, rfl⟩

/-- C6 (amended): in the jp variant, when the primary listing raises and no
persisted fallback exists the resolved catalog is empty and `main` returns
before any manifest work; in the cn variant resolution never fails — with
all sources exhausted a hardcoded two-entry list is returned and the run
proceeds. -/
theorem C6_catalog_exhaustion (prev : Option (List Entry)) (ex : List String) :
    JP.get_tse_list none none = ([], none) ∧
      JP.main_manifest_stage [] prev ex = none ∧
      CN.get_cn_list none none none = ["600519&貴州茅台", "000001&平安銀行"] :=
  ⟨rfl, rfl, rfl⟩

/-- C7 counterexample: during a persist the manifest file passes through a
state that is neither the previous ledger nor the new one — the single-entry
prefix of a two-entry write — so the stored ledger is observable partially
written. -/
theorem C7_counterexample :
    [(⟨"1301", "A", "T", "done"⟩ : Entry)] ∈
        JP.to_csv [⟨"9984", "S", "T", "pending"⟩]
          [⟨"1301", "A", "T", "done"⟩, ⟨"9984", "S", "T", "done"⟩] ∧
      [(⟨"1301", "A", "T", "done"⟩ : Entry)] ≠ [⟨"9984", "S", "T", "pending"⟩] ∧
      [(⟨"1301", "A", "T", "done"⟩ : Entry)] ≠
        [⟨"1301", "A", "T", "done"⟩, ⟨"9984", "S", "T", "done"⟩] := by
  refine ⟨?_, by decide, by decide⟩
  simp [JP.to_csv, List.range_succ]

/-- C7 (amended): persistence is an in-place overwrite, not an atomic
replace: the observable states of a `to_csv` call start from the old ledger
and end with the complete new ledger (every finished persist leaves a full
ledger, but partial prefixes are observable mid-write), and the result loop
persists after every 100th update and unconditionally once more at
completion, the last persisted snapshot being the final manifest. -/
theorem C7_persist_inplace (old new : List Entry) (mf : List Entry)
    (results : List (Nat × String)) :
    (JP.to_csv old new).head? = some old ∧
      (JP.to_csv old new).getLast? = some new ∧
      (JP.runLoop mf 0 [] results).2 ≠ [] ∧
      (JP.runLoop mf 0 [] results).2.getLast? = some (JP.runLoop mf 0 [] results).1 := by
  refine ⟨rfl, to_csv_getLast old new, ?_, runLoop_last results mf 0 []⟩
  intro hnil
  have h := runLoop_last results mf 0 []
  rw [hnil] at h
  cases h

/-- C8 counterexample: on a first run with no persisted ledger, a catalog
target whose artifact file already exists in the data directory receives
status `done`, not `pending`. -/
theorem C8_counterexample :
    JP.build_manifest none ["1301"] [⟨"1301", "A", "T"⟩] =
        [⟨"1301", "A", "T", "done"⟩] ∧
      ("done" : String) ≠ "pending" := by
  exact ⟨rfl, by decide⟩

/-- C8 (amended): on the first run the manifest holds exactly one entry per
catalog row, each carrying the listing columns, with status `pending` unless
the target's artifact file already exists in the data directory, in which
case the status is `done`; no other status occurs. -/
theorem C8_first_run_statuses (ts : List Target) (ex : List String) :
    (JP.build_manifest none ex ts).length = ts.length ∧
      (∀ t ∈ ts,
        ({ code := t.code, name := t.name, board := t.board,
           status := if ex.contains t.code then "done" else "pending" } : Entry) ∈
          JP.build_manifest none ex ts) ∧
      ∀ e ∈ JP.build_manifest none ex ts,
        (ex.contains e.code = true → e.status = "done") ∧
          (ex.contains e.code = false → e.status = "pending") := by
  rw [build_manifest_none]
  refine ⟨by simp [JP.firstRun], ?_, ?_⟩
  · intro t ht
    exact List.mem_map.mpr ⟨t, ht, rfl⟩
  · intro e he
    rcases List.mem_map.mp he with ⟨t, _, rfl⟩
    cases hc : ex.contains t.code <;> simp [hc]

/-- C8 witness: a two-target first run against a data directory already
holding the first target's file — the manifest has two entries and the
second target is `pending`. -/
theorem C8_witness :
    (JP.build_manifest none ["1301"] [⟨"1301", "A", "T"⟩, ⟨"9984", "S", "T"⟩]).length = 2 ∧
      ({ code := "9984", name := "S", board := "T", status := "pending" } : Entry) ∈
        JP.build_manifest none ["1301"] [⟨"1301", "A", "T"⟩, ⟨"9984", "S", "T"⟩] := by
  have h := C8_first_run_statuses [⟨"1301", "A", "T"⟩, ⟨"9984", "S", "T"⟩] ["1301"]
  have h2 := h.2.1 ⟨"9984", "S", "T"⟩ (by simp)
  exact ⟨h.1, h2⟩

/-- C9: for every behavior of the fetch function — including a raised
exception on any attempt — each per-target download operation returns one of
its classified status strings, so no exception propagates and no single
target's failure can abort the processing of the remaining targets. -/
theorem C9_total_outcomes (fetch : Nat → FetchOutcome) (fs fs2 : FileState)
    (today : Int) (f1 : FetchOutcome) :
    (JP.download_one fetch).1 ∈ (["done", "empty", "failed"] : List String) ∧
      (US.download_stock_data fs fetch).1 ∈
        (["exists", "success", "empty", "error"] : List String) ∧
      (CN.download_one fs2 today f1).1 ∈
        (["exists", "success", "empty", "error"] : List String) := by
  refine ⟨?_, ?_, ?_⟩
  · rcases attemptsLoop_mem fetch 3 0 0 with h | h | h <;> simp [JP.download_one, h]
  · unfold US.download_stock_data
    split
    · simp
    · rcases attemptsLoopUS_mem fetch 2 0 0 with h | h <;> simp [h]
  · unfold CN.download_one
    split
    · simp
    · cases f1 with
      | data ne => cases ne <;> simp
      | exn rl => simp

/-- C10: every status the jp manifest operations write lies in
{pending, done, empty, failed}: first-run construction and merge write only
such statuses, the per-target download returns only such statuses, and the
positional status write preserves the invariant — so after any sequence of
these operations every entry's status lies in that set. -/
theorem C10_status_domain (ex : List String) (ts : List Target) (mf : List Entry)
    (i : Nat) (s : String) (fetch : Nat → FetchOutcome) :
    (∀ e ∈ JP.build_manifest none ex ts, status_ok e.status) ∧
      ((∀ e ∈ mf, status_ok e.status) →
        ∀ e ∈ JP.build_manifest (some mf) ex ts, status_ok e.status) ∧
      status_ok (JP.download_one fetch).1 ∧
      (status_ok s → (∀ e ∈ mf, status_ok e.status) →
        ∀ e ∈ JP.setStatus mf i s, status_ok e.status) := by
  refine ⟨?_, ?_, ?_, ?_⟩
  · rw [build_manifest_none]
    intro e he
    rcases List.mem_map.mp he with ⟨t, _, rfl⟩
    cases hc : ex.contains t.code <;> simp [hc, status_ok]
  · intro hmf e he
    unfold JP.build_manifest at he
    by_cases hts : ts.isEmpty
    · rw [if_pos hts] at he
      cases he
    · rw [if_neg hts] at he
      unfold JP.mergeManifest at he
      rcases List.mem_append.mp he with h | h
      · exact hmf e h
      · rcases List.mem_map.mp h with ⟨t, _, rfl⟩
        simp [JP.toPendingEntry, status_ok]
  · rcases attemptsLoop_mem fetch 3 0 0 with h | h | h <;>
      simp [JP.download_one, h, status_ok]
  · intro hs hmf
    induction mf generalizing i with
    | nil => intro e he; cases he
    | cons hd tl ih =>
        intro e he
        cases i with
        | zero =>
            rcases List.mem_cons.mp he with rfl | h
            · exact hs
            · exact hmf e (List.mem_cons_of_mem hd h)
        | succ j =>
            rcases List.mem_cons.mp he with rfl | h
            · exact hmf e (List.mem_cons_self e tl)
            · exact ih j (fun e2 he2 => hmf e2 (List.mem_cons_of_mem hd he2)) e h

/-- C10 witness: the status-domain theorem applied to a concrete run: the
always-failing fetch yields an in-domain status, and writing `done` into a
concrete manifest yields an in-domain entry. -/
theorem C10_witness :
    status_ok (JP.download_one alwaysExn).1 ∧ status_ok ("done" : String) := by
  have h := C10_status_domain [] [] [⟨"1301", "A", "T", "pending"⟩] 0 "done" alwaysExn
  exact ⟨h.2.2.1,
    h.2.2.2 (by decide) (by decide) ⟨"1301", "A", "T", "done"⟩ (by decide)⟩

